import Mathlib

/-!
Shallow embedding of `src/controllers/list_controller.py` (class `ListController`).

Modelling conventions:
- The external collaborators (`DBManager`, `ClipboardManager`) are modelled as
  records of functions returning `Except String α`; an `Except.error` models a
  Python exception raised by the collaborator.
- A controller method that lets an exception escape to its caller is modelled
  with result type `Outcome α`; `Outcome.raised e` means the exception `e`
  propagated out of the method.
- PyQt signal emissions, successful clipboard `copy_text` invocations and
  successful store writes are recorded, in program order, in an event trace
  carried by the controller state (`CtrlState.events`).
- The `QTimer` is modelled by `Option TimerH`: `none` = no timer object,
  `some t` = a timer object with its `active` flag and the interval passed to
  `start`.  A timeout tick fires `_execute_next_step` only while the timer is
  active (`timer_tick`).
-/

namespace ListCtrl

/-- Single-quote character as a string (used inside user-facing messages). -/
def sq : String := String.singleton (Char.ofNat 39)

/-- Python `str.strip()`: remove leading and trailing whitespace. -/
def py_strip (s : String) : String :=
  String.mk (((s.data.dropWhile Char.isWhitespace).reverse.dropWhile Char.isWhitespace).reverse)

/-- Row of the `listas` table as returned by `db.get_lista`. -/
structure ListaRec where
  id : Int
  category_id : Int
  name : String
  description : Option String
deriving Repr, DecidableEq

/-- Item row as returned by `db.get_items_by_lista` (only the fields the
controller reads: `id`, `label`, `content`). -/
structure ItemRec where
  id : Int
  label : String
  content : String
deriving Repr, DecidableEq

/-- Entry of the `items_data` argument (a Python dict).  `label` is an
`Option` because the controller distinguishes a missing/empty label
(`item.get` with and without a default). -/
structure ItemData where
  label : Option String
  content : String
  item_type : String
  icon : Option String
  description : Option String
  is_sensitive : Bool
  tags : List String
deriving Repr, DecidableEq

/-- Keyword arguments of a `db.add_item` call. -/
structure AddItemArgs where
  category_id : Int
  label : String
  content : String
  item_type : String
  icon : Option String
  description : Option String
  is_sensitive : Bool
  tags : List String
  list_id : Option Int
  orden_lista : Option Nat
deriving Repr, DecidableEq

/-- A `QTimer` object: whether it is running, and the interval passed to
`start` (a fresh `QTimer()` is inactive with interval 0). -/
structure TimerH where
  active : Bool
  interval : Int
deriving Repr, DecidableEq

/-- Observable effects of the controller, in program order: PyQt signal
emissions, completed clipboard copy calls, and successful store writes. -/
inductive Event where
  | list_created (lista_id : Int) (category_id : Int)
  | list_created_legacy (name : String) (category_id : Int)
  | list_updated (lista_id : Int) (category_id : Int)
  | list_renamed (lista_id : Int) (old_name : String) (new_name : String) (category_id : Int)
  | list_updated_legacy (name : String) (category_id : Int)
  | list_deleted (lista_id : Int) (category_id : Int)
  | list_deleted_legacy (name : String) (category_id : Int)
  | execution_started (lista_id : Int) (total_items : Nat)
  | execution_step (step_number : Nat) (label : String)
  | execution_completed (lista_id : Int)
  | execution_cancelled
  | error_occurred (msg : String)
  | clipboard_copy (text : String)
  | db_create_lista (category_id : Int) (name : String) (description : Option String)
  | db_add_item (args : AddItemArgs)
  | db_update_lista (lista_id : Int) (name : Option String) (description : Option String)
  | db_delete_lista (lista_id : Int)
  | db_delete_item (item_id : Int)
deriving Repr, DecidableEq

/-- Mutable state of a `ListController` instance: the sequential-execution
session fields (`_execution_timer`, `_execution_items`, `_execution_index`,
`_execution_list_name`, `_execution_list_id`) plus the event trace. -/
structure CtrlState where
  execution_timer : Option TimerH
  execution_items : List ItemRec
  execution_index : Nat
  execution_list_name : String
  execution_list_id : Int
  events : List Event
deriving Repr, DecidableEq

/-- State of a freshly constructed controller (`__init__`). -/
def CtrlState.init : CtrlState :=
  { execution_timer := none, execution_items := [], execution_index := 0,
    execution_list_name := "", execution_list_id := 0, events := [] }

/-- Append one event to the trace. -/
def emit (s : CtrlState) (e : Event) : CtrlState :=
  { s with events := s.events ++ [e] }

/-- The `DBManager` collaborator: each operation may raise (`Except.error`). -/
structure Store where
  get_lista : Int → Except String (Option ListaRec)
  get_items_by_lista : Int → Except String (List ItemRec)
  is_lista_name_unique : Int → String → Option Int → Except String Bool
  create_lista : Int → String → Option String → Except String Int
  add_item : AddItemArgs → Except String Int
  update_lista : Int → Option String → Option String → Except String Unit
  delete_lista : Int → Except String Bool
  delete_item : Int → Except String Unit
  get_listas_by_category_new : Int → Except String (List ListaRec)

/-- The `ClipboardManager` collaborator: `copy_text` may raise or return a
success flag. -/
abbrev Clipboard := String → Except String Bool

/-- Result of a controller method as seen by its caller: either a returned
value, or a Python exception that propagated out of the method. -/
inductive Outcome (α : Type) where
  | ok (val : α)
  | raised (msg : String)
deriving Repr, DecidableEq

/-- True when the method returned normally (no exception escaped). -/
def Outcome.isOk {α : Type} : Outcome α → Bool
  | .ok _ => true
  | .raised _ => false

/-! ## Validation (`validate_list_data`) -/

/-- Per-item loop of `validate_list_data` (1-indexed step numbers).
a label read via `item.get` is falsy when the key is missing or the label empty. -/
def validate_items : Nat → List ItemData → Bool × String
  | _, [] => (true, "")
  | i, item :: rest =>
    if item.label = none ∨ item.label = some ("") then
      (false, "El paso #" ++ toString i ++ " debe tener un nombre/label")
    else if 200 < (item.label.getD ("")).length then
      (false, "El nombre del paso #" ++ toString i ++ " es demasiado largo")
    else validate_items (i + 1) rest

/-- Uniqueness check of `validate_list_data`: only performed when a
`category_id` is supplied; the store call may raise. -/
def unique_step (db : Store) (list_name : String) (category_id : Option Int)
    (exclude_list_id : Option Int) : Except String (Option String) :=
  match category_id with
  | none => .ok none
  | some cid =>
    match db.is_lista_name_unique cid list_name exclude_list_id with
    | .error e => .error e
    | .ok u =>
      if u then .ok none
      else .ok (some ("Ya existe una lista con el nombre " ++ sq ++ list_name ++ sq ++
        " en esta categoría"))

/-- `validate_list_data(list_name, items_data, category_id, exclude_list_id)`.
Checks are performed in source order, short-circuiting on the first failure;
the uniqueness rule consults the store and can therefore raise. -/
def validate_list_data (db : Store) (list_name : String) (items_data : List ItemData)
    (category_id : Option Int) (exclude_list_id : Option Int) :
    Except String (Bool × String) :=
  if list_name = "" ∨ py_strip list_name = "" then
    .ok (false, "El nombre de la lista no puede estar vacío")
  else if 100 < list_name.length then
    .ok (false, "El nombre de la lista es demasiado largo (máximo 100 caracteres)")
  else
    match unique_step db list_name category_id exclude_list_id with
    | .error e => .error e
    | .ok (some msg) => .ok (false, msg)
    | .ok none =>
      if items_data.length = 0 then
        .ok (false, "La lista debe tener al menos un paso/item")
      else if 50 < items_data.length then
        .ok (false, "La lista no puede tener más de 50 pasos")
      else
        .ok (validate_items 1 items_data)

/-! ## `create_list` -/

/-- Keyword arguments of the `db.add_item` call made for the item at 1-based
position `orden` while creating/replacing the items of list `lista_id`. -/
def mkAddArgs (category_id : Int) (lista_id : Int) (orden : Nat) (d : ItemData) :
    AddItemArgs :=
  { category_id := category_id, label := d.label.getD (""), content := d.content,
    item_type := d.item_type, icon := d.icon, description := d.description,
    is_sensitive := d.is_sensitive, tags := d.tags, list_id := some lista_id,
    orden_lista := some orden }

/-- Store-write events produced by persisting `items` starting at 1-based
position `k` (used to state trace postconditions). -/
def addEvents (category_id : Int) (lista_id : Int) : Nat → List ItemData → List Event
  | _, [] => []
  | k, d :: rest =>
    Event.db_add_item (mkAddArgs category_id lista_id k d) :: addEvents category_id lista_id (k + 1) rest

/-- Item-persisting loop of `create_list` (also used by the
replace-items path of `update_list`): calls `db.add_item` for each entry with a 1-based
`orden_lista`, collecting the returned ids; a raise aborts the loop, keeping
the events of the items already written. -/
def create_list_items_loop (db : Store) (category_id : Int) (lista_id : Int) :
    Nat → List ItemData → CtrlState → Except String (List Int) × CtrlState
  | _, [], s => (.ok [], s)
  | k, d :: rest, s =>
    match db.add_item (mkAddArgs category_id lista_id k d) with
    | .error e => (.error e, s)
    | .ok item_id =>
      let s1 := emit s (.db_add_item (mkAddArgs category_id lista_id k d))
      match create_list_items_loop db category_id lista_id (k + 1) rest s1 with
      | (.error e, s2) => (.error e, s2)
      | (.ok ids, s2) => (.ok (item_id :: ids), s2)

/-- `create_list(category_id, list_name, items_data, description)`.
Validation runs before the `try` block, so an exception raised by
`is_lista_name_unique` there propagates to the caller (`Outcome.raised`);
every exception raised inside the `try` block is caught and converted to a
`(False, message, 0, [])` result plus an error signal. -/
def create_list (db : Store) (s : CtrlState) (category_id : Int) (list_name : String)
    (items_data : List ItemData) (description : Option String) :
    Outcome (Bool × String × Int × List Int) × CtrlState :=
  match validate_list_data db list_name items_data (some category_id) none with
  | .error e => (.raised e, s)
  | .ok (valid, error_msg) =>
    if valid = false then
      (.ok (false, error_msg, 0, []), emit s (.error_occurred error_msg))
    else
      match db.create_lista category_id list_name description with
      | .error e =>
        let msg := "Error al crear lista: " ++ e
        (.ok (false, msg, 0, []), emit s (.error_occurred msg))
      | .ok lista_id =>
        let s1 := emit s (.db_create_lista category_id list_name description)
        match create_list_items_loop db category_id lista_id 1 items_data s1 with
        | (.error e, s2) =>
          let msg := "Error al crear lista: " ++ e
          (.ok (false, msg, 0, []), emit s2 (.error_occurred msg))
        | (.ok item_ids, s2) =>
          let s3 := emit (emit s2 (.list_created lista_id category_id))
            (.list_created_legacy list_name category_id)
          (.ok (true, "Lista " ++ sq ++ list_name ++ sq ++ " creada con " ++
            toString item_ids.length ++ " pasos", lista_id, item_ids), s3)

/-! ## `update_list` -/

/-- Caught-exception exit of the `except` clause of `update_list`. -/
def update_err (s : CtrlState) (e : String) : Outcome (Bool × String) × CtrlState :=
  let error_msg := "Error al actualizar lista: " ++ e
  (.ok (false, error_msg), emit s (.error_occurred error_msg))

/-- Scans a haystack for an occurrence of `needle` (helper of `str_contains`). -/
def contains_aux (needle : List Char) : List Char → Bool
  | [] => needle.isEmpty
  | c :: rest => needle.isPrefixOf (c :: rest) || contains_aux needle rest

/-- Substring test (`needle in haystack` in Python). -/
def str_contains (haystack : String) (needle : String) : Bool :=
  contains_aux needle.data haystack.data

/-- `final_name = new_name if new_name else old_name` (Python truthiness:
`None` and the empty string both fall back to `old_name`). -/
def final_name_of (new_name : Option String) (old_name : String) : String :=
  match new_name with
  | some nn => if nn = "" then old_name else nn
  | none => old_name

/-- Rename-validation step of `update_list`: runs only when `new_name` is
truthy and differs from the current name; an items-missing validation error
is ignored (`"al menos un" not in error_msg`).  Returns the error message to
fail with, if any; may raise via the store. -/
def rename_check (db : Store) (new_name : Option String) (old_name : String)
    (items_data : Option (List ItemData)) (category_id : Int) (lista_id : Int) :
    Except String (Option String) :=
  match new_name with
  | some nn =>
    if nn ≠ "" ∧ nn ≠ old_name then
      match validate_list_data db nn (items_data.getD []) (some category_id) (some lista_id) with
      | .error e => .error e
      | .ok (valid, error_msg) =>
        if valid = false ∧ str_contains error_msg ("al menos un") = false then
          .ok (some error_msg)
        else .ok none
    else .ok none
  | none => .ok none

/-- Items-validation step of `update_list`: runs only when `items_data` is
supplied (is not `None`); validates the full new set against the final name. -/
def items_check (db : Store) (new_name : Option String) (old_name : String)
    (items_data : Option (List ItemData)) (category_id : Int) (lista_id : Int) :
    Except String (Option String) :=
  match items_data with
  | some idata =>
    match validate_list_data db (final_name_of new_name old_name) idata
        (some category_id) (some lista_id) with
    | .error e => .error e
    | .ok (valid, error_msg) =>
      if valid = false then .ok (some error_msg) else .ok none
  | none => .ok none

/-- Item-deletion loop of the replace-items path of `update_list`. -/
def delete_items_loop (db : Store) : List ItemRec → CtrlState → Except String Unit × CtrlState
  | [], s => (.ok (), s)
  | it :: rest, s =>
    match db.delete_item it.id with
    | .error e => (.error e, s)
    | .ok _ => delete_items_loop db rest (emit s (.db_delete_item it.id))

/-- Signal emissions and return value at the end of a successful
`update_list`: `list_renamed` when the name actually changed, otherwise
`list_updated`; always the legacy `list_updated_legacy` signal. -/
def update_finish (s : CtrlState) (lista_id : Int) (new_name : Option String)
    (old_name : String) (category_id : Int) : Outcome (Bool × String) × CtrlState :=
  let final_name := final_name_of new_name old_name
  let s1 :=
    match new_name with
    | some nn =>
      if nn ≠ "" ∧ nn ≠ old_name then
        emit s (.list_renamed lista_id old_name nn category_id)
      else emit s (.list_updated lista_id category_id)
    | none => emit s (.list_updated lista_id category_id)
  let s2 := emit s1 (.list_updated_legacy final_name category_id)
  (.ok (true, "Lista " ++ sq ++ final_name ++ sq ++ " actualizada exitosamente"), s2)

/-- `update_list(lista_id, new_name, description, items_data)`.  The whole
body sits inside the `try` block, so every store exception is caught. -/
def update_list (db : Store) (s : CtrlState) (lista_id : Int) (new_name : Option String)
    (description : Option String) (items_data : Option (List ItemData)) :
    Outcome (Bool × String) × CtrlState :=
  match db.get_lista lista_id with
  | .error e => update_err s e
  | .ok none =>
    let error_msg := "Lista con ID " ++ toString lista_id ++ " no encontrada"
    (.ok (false, error_msg), emit s (.error_occurred error_msg))
  | .ok (some lista) =>
    let old_name := lista.name
    let category_id := lista.category_id
    match rename_check db new_name old_name items_data category_id lista_id with
    | .error e => update_err s e
    | .ok (some error_msg) => (.ok (false, error_msg), emit s (.error_occurred error_msg))
    | .ok none =>
      match items_check db new_name old_name items_data category_id lista_id with
      | .error e => update_err s e
      | .ok (some error_msg) => (.ok (false, error_msg), emit s (.error_occurred error_msg))
      | .ok none =>
        let name_upd : Option String :=
          match new_name with
          | some nn => if nn = "" then none else some nn
          | none => none
        let upd_needed := name_upd.isSome || description.isSome
        match (if upd_needed then db.update_lista lista_id name_upd description else .ok ()) with
        | .error e => update_err s e
        | .ok _ =>
          let s1 := if upd_needed then emit s (.db_update_lista lista_id name_upd description) else s
          match items_data with
          | none => update_finish s1 lista_id new_name old_name category_id
          | some idata =>
            match db.get_items_by_lista lista_id with
            | .error e => update_err s1 e
            | .ok current =>
              match delete_items_loop db current s1 with
              | (.error e, s2) => update_err s2 e
              | (.ok _, s2) =>
                match create_list_items_loop db category_id lista_id 1 idata s2 with
                | (.error e, s3) => update_err s3 e
                | (.ok _, s3) => update_finish s3 lista_id new_name old_name category_id

/-! ## `delete_list`, `rename_list`, queries -/

/-- `delete_list(lista_id)`: fetch, delete (store cascades the items), emit
the deleted signals on success; exceptions caught. -/
def delete_list (db : Store) (s : CtrlState) (lista_id : Int) :
    Outcome (Bool × String) × CtrlState :=
  match db.get_lista lista_id with
  | .error e =>
    let error_msg := "Error al eliminar lista: " ++ e
    (.ok (false, error_msg), emit s (.error_occurred error_msg))
  | .ok none =>
    let error_msg := "Lista con ID " ++ toString lista_id ++ " no encontrada"
    (.ok (false, error_msg), emit s (.error_occurred error_msg))
  | .ok (some lista) =>
    match db.delete_lista lista_id with
    | .error e =>
      let error_msg := "Error al eliminar lista: " ++ e
      (.ok (false, error_msg), emit s (.error_occurred error_msg))
    | .ok true =>
      let s1 := emit s (.db_delete_lista lista_id)
      let s2 := emit (emit s1 (.list_deleted lista_id lista.category_id))
        (.list_deleted_legacy lista.name lista.category_id)
      (.ok (true, "Lista " ++ sq ++ lista.name ++ sq ++ " eliminada"), s2)
    | .ok false => (.ok (false, "Error al eliminar lista"), s)

/-- `rename_list` is a pure alias for `update_list` with only a new name. -/
def rename_list (db : Store) (s : CtrlState) (lista_id : Int) (new_name : String) :
    Outcome (Bool × String) × CtrlState :=
  update_list db s lista_id (some new_name) none none

/-- `get_lists(category_id)`: empty list (not an error) when the store raises. -/
def get_lists (db : Store) (category_id : Int) : List ListaRec :=
  match db.get_listas_by_category_new category_id with
  | .ok l => l
  | .error _ => []

/-- `get_list_items(lista_id)`: empty list (not an error) when the store raises. -/
def get_list_items (db : Store) (lista_id : Int) : List ItemRec :=
  match db.get_items_by_lista lista_id with
  | .ok l => l
  | .error _ => []

/-- `get_list_count(category_id)`. -/
def get_list_count (db : Store) (category_id : Int) : Nat :=
  (get_lists db category_id).length

/-! ## `copy_all_list_items` -/

/-- `copy_all_list_items(lista_id, separator)`.  Note that the not-found and
empty-list failures return early without emitting `error_occurred`; only the
`except` clause emits it. -/
def copy_all_list_items (db : Store) (clip : Clipboard) (s : CtrlState)
    (lista_id : Int) (separator : String) : Outcome (Bool × String) × CtrlState :=
  match db.get_lista lista_id with
  | .error e =>
    let error_msg := "Error al copiar lista: " ++ e
    (.ok (false, error_msg), emit s (.error_occurred error_msg))
  | .ok none =>
    (.ok (false, "Lista con ID " ++ toString lista_id ++ " no encontrada"), s)
  | .ok (some lista) =>
    let items := get_list_items db lista_id
    if items.length = 0 then
      (.ok (false, "La lista está vacía"), s)
    else
      let combined := String.intercalate separator (items.map (fun it => it.content))
      match clip combined with
      | .error e =>
        let error_msg := "Error al copiar lista: " ++ e
        (.ok (false, error_msg), emit s (.error_occurred error_msg))
      | .ok success =>
        let s1 := emit s (.clipboard_copy combined)
        if success then
          (.ok (true, "Copiados " ++ toString items.length ++ " pasos de " ++
            sq ++ lista.name ++ sq), s1)
        else
          (.ok (false, "Error al copiar al clipboard"), s1)

/-! ## Sequential execution -/

/-- `_finish_execution`: stop and drop the timer (the field ends up `None`
whether or not a timer existed), reset every session field to its idle
default, and emit `execution_completed` with the list id captured before the
reset. -/
def finish_execution (s : CtrlState) : CtrlState :=
  { execution_timer := none, execution_items := [], execution_index := 0,
    execution_list_name := "", execution_list_id := 0,
    events := s.events ++ [.execution_completed s.execution_list_id] }

/-- `_execute_next_step`: finalize once the cursor reaches the item count;
otherwise copy the content of the current item (a clipboard exception is caught
and forces finalization), emit the step signal and advance the cursor. -/
def execute_next_step (clip : Clipboard) (s : CtrlState) : CtrlState :=
  if h : s.execution_index < s.execution_items.length then
    let item := s.execution_items.get ⟨s.execution_index, h⟩
    let step_number := s.execution_index + 1
    match clip item.content with
    | .error _ => finish_execution s
    | .ok _ =>
      let s1 := emit (emit s (.clipboard_copy item.content)) (.execution_step step_number item.label)
      { s1 with execution_index := s1.execution_index + 1 }
  else finish_execution s

/-- `cancel_execution`: a no-op unless a timer exists and is active; then
stop/drop the timer, reset the session fields and emit `execution_cancelled`. -/
def cancel_execution (s : CtrlState) : CtrlState :=
  match s.execution_timer with
  | some t =>
    if t.active then
      { execution_timer := none, execution_items := [], execution_index := 0,
        execution_list_name := "", execution_list_id := 0,
        events := s.events ++ [.execution_cancelled] }
    else s
  | none => s

/-- `is_executing`: a timer exists and is currently active. -/
def is_executing (s : CtrlState) : Bool :=
  match s.execution_timer with
  | some t => t.active
  | none => false

/-- `execute_list_sequentially(lista_id, delay_ms)`.  On the happy path:
cancel any previous session, install the new session with a fresh (inactive)
timer, emit `execution_started`, run step 0 synchronously, then start the
timer only when the list has more than one item.  If the clipboard call of the
first step raised, `_execute_next_step` already finalized and set the
timer field to `None`, so the `start` call raises `AttributeError`, which the
`except` clause converts to an error signal and `False`. -/
def execute_list_sequentially (db : Store) (clip : Clipboard) (s : CtrlState)
    (lista_id : Int) (delay_ms : Int) : Outcome Bool × CtrlState :=
  match db.get_lista lista_id with
  | .error e =>
    let error_msg := "Error al ejecutar lista: " ++ e
    (.ok false, emit s (.error_occurred error_msg))
  | .ok none =>
    (.ok false, emit s (.error_occurred ("Lista con ID " ++ toString lista_id ++ " no encontrada")))
  | .ok (some lista) =>
    let items := get_list_items db lista_id
    if items.length = 0 then
      (.ok false, emit s (.error_occurred ("La lista está vacía")))
    else
      let s1 := cancel_execution s
      let s2 := { s1 with
        execution_items := items, execution_index := 0,
        execution_list_id := lista_id, execution_list_name := lista.name,
        execution_timer := some { active := false, interval := 0 } }
      let s3 := emit s2 (.execution_started lista_id items.length)
      let s4 := execute_next_step clip s3
      if 1 < items.length then
        match s4.execution_timer with
        | some _ => (.ok true, { s4 with execution_timer := some { active := true, interval := delay_ms } })
        | none =>
          let error_msg := "Error al ejecutar lista: " ++ sq ++ "NoneType" ++ sq ++
            " object has no attribute " ++ sq ++ "start" ++ sq
          (.ok false, emit s4 (.error_occurred error_msg))
      else (.ok true, s4)

/-- A timeout tick of the repeating timer: fires `_execute_next_step` only
while the timer object exists and is active; otherwise nothing happens. -/
def timer_tick (clip : Clipboard) (s : CtrlState) : CtrlState :=
  match s.execution_timer with
  | some t => if t.active then execute_next_step clip s else s
  | none => s

/-! ## Concrete collaborators used by the concrete-input theorems -/

/-- A concrete list row (id 1, category 2). -/
def lista1 : ListaRec := { id := 1, category_id := 2, name := "Pasos", description := none }

/-- First concrete item row. -/
def itemA : ItemRec := { id := 10, label := "Paso uno", content := "contenido uno" }

/-- Second concrete item row. -/
def itemB : ItemRec := { id := 11, label := "Paso dos", content := "contenido dos" }

/-- A well-formed `items_data` entry. -/
def dGood : ItemData :=
  { label := some ("Paso uno"), content := "contenido uno", item_type := "text",
    icon := none, description := none, is_sensitive := false, tags := [] }

/-- A second well-formed `items_data` entry. -/
def dGood2 : ItemData :=
  { label := some ("Paso dos"), content := "contenido dos", item_type := "text",
    icon := none, description := none, is_sensitive := false, tags := [] }

/-- Store holding list 1 with two items; writes succeed, `add_item` returns
`100 + orden_lista`. -/
def db2 : Store :=
  { get_lista := fun i => .ok (if i = 1 then some lista1 else none),
    get_items_by_lista := fun i => .ok (if i = 1 then [itemA, itemB] else []),
    is_lista_name_unique := fun _ _ _ => .ok true,
    create_lista := fun _ _ _ => .ok 5,
    add_item := fun a => .ok (100 + Int.ofNat (a.orden_lista.getD 0)),
    update_lista := fun _ _ _ => .ok (),
    delete_lista := fun _ => .ok true,
    delete_item := fun _ => .ok (),
    get_listas_by_category_new := fun _ => .ok [] }

/-- Store holding list 1 with a single item. -/
def db1 : Store :=
  { db2 with get_items_by_lista := fun i => .ok (if i = 1 then [itemA] else []) }

/-- Store whose `is_lista_name_unique` raises. -/
def dbThrow : Store :=
  { db2 with is_lista_name_unique := fun _ _ _ => .error ("boom") }

/-- Store in which no list exists. -/
def dbNone : Store :=
  { db2 with get_lista := fun _ => .ok none }

/-- Clipboard whose `copy_text` always succeeds. -/
def clip0 : Clipboard := fun _ => .ok true

/-- Store whose query operations raise. -/
def dbRaise : Store :=
  { db2 with get_listas_by_category_new := fun _ => .error ("boom"),
             get_items_by_lista := fun _ => .error ("boom") }

/-- Events of the concrete successful `create_list` run used for C4. -/
def createdEvents : List Event :=
  [.db_create_lista 2 "Nueva" none, .db_add_item (mkAddArgs 2 5 1 dGood),
   .db_add_item (mkAddArgs 2 5 2 dGood2), .list_created 5 2, .list_created_legacy ("Nueva") 2]

/-! ## Theorems -/

/-- An optional label read with default `""` is empty iff the underlying
entry is missing or the empty string. -/
lemma label_getD_empty (o : Option String) : o.getD ("") = "" ↔ (o = none ∨ o = some ("")) := by
  cases o <;> simp

/-- Characterization of the per-item validation loop. -/
lemma validate_items_eq_ok (k : Nat) (items : List ItemData) :
    validate_items k items = (true, "") ↔
    ∀ d ∈ items, d.label.getD ("") ≠ "" ∧ (d.label.getD ("")).length ≤ 200 := by
  induction items generalizing k with
  | nil => simp [validate_items]
  | cons d rest ih =>
    simp only [validate_items, List.mem_cons]
    by_cases h1 : d.label = none ∨ d.label = some ("")
    · rw [if_pos h1]
      have hempty : d.label.getD ("") = "" := (label_getD_empty d.label).mpr h1
      constructor
      · intro h; simp at h
      · intro h; exact absurd hempty (h d (Or.inl rfl)).1
    · rw [if_neg h1]
      have hne : d.label.getD ("") ≠ "" := fun hc => h1 ((label_getD_empty d.label).mp hc)
      by_cases h2 : 200 < (d.label.getD ("")).length
      · rw [if_pos h2]
        constructor
        · intro h; simp at h
        · intro h
          have := (h d (Or.inl rfl)).2
          omega
      · rw [if_neg h2, ih (k + 1)]
        constructor
        · intro h x hx
          rcases hx with rfl | hx'
          · exact ⟨hne, by omega⟩
          · exact h x hx'
        · intro h x hx
          exact h x (Or.inr hx)

/-- Empty/whitespace-only name short-circuits validation (any category). -/
lemma validate_name_empty_cases (db : Store) (n : String) (items : List ItemData)
    (cat : Option Int) (ex : Option Int) (h : py_strip n = "") :
    validate_list_data db n items cat ex =
      .ok (false, "El nombre de la lista no puede estar vacío") := by
  simp only [validate_list_data]
  rw [if_pos (Or.inr h)]

/-- Over-long name short-circuits validation (any category). -/
lemma validate_name_long_cases (db : Store) (n : String) (items : List ItemData)
    (cat : Option Int) (ex : Option Int) (h1 : py_strip n ≠ "") (h2 : 100 < n.length) :
    validate_list_data db n items cat ex =
      .ok (false, "El nombre de la lista es demasiado largo (máximo 100 caracteres)") := by
  have hno : ¬(n = "" ∨ py_strip n = "") := by
    rintro (rfl | hc)
    · exact h1 rfl
    · exact h1 hc
  simp only [validate_list_data]
  rw [if_neg hno, if_pos h2]

/-- C3: with no `category_id`, `validate_list_data` never raises, checks its
rules in source order short-circuiting on the first failure (names before
items), and returns `(true, "")` exactly on trimmed-non-empty names of
length ≤ 100 with 1–50 items whose labels are all non-empty and ≤ 200
characters. -/
theorem validate_list_data_characterization (db : Store) (list_name : String)
    (items_data : List ItemData) :
    (∃ b msg, validate_list_data db list_name items_data none none = .ok (b, msg)) ∧
    (py_strip list_name = "" →
      validate_list_data db list_name items_data none none =
        .ok (false, "El nombre de la lista no puede estar vacío")) ∧
    (py_strip list_name ≠ "" → 100 < list_name.length →
      validate_list_data db list_name items_data none none =
        .ok (false, "El nombre de la lista es demasiado largo (máximo 100 caracteres)")) ∧
    (validate_list_data db list_name items_data none none = .ok (true, "") ↔
      (py_strip list_name ≠ "" ∧ list_name.length ≤ 100 ∧ items_data.length ≠ 0 ∧
       items_data.length ≤ 50 ∧
       ∀ d ∈ items_data, d.label.getD ("") ≠ "" ∧ (d.label.getD ("")).length ≤ 200)) := by
  refine ⟨?_, validate_name_empty_cases db list_name items_data none none,
    validate_name_long_cases db list_name items_data none none, ?_⟩
  · simp only [validate_list_data, unique_step]
    split_ifs <;> exact ⟨_, _, rfl⟩
  · by_cases h1 : py_strip list_name = ""
    · rw [validate_name_empty_cases db list_name items_data none none h1]
      simp [h1]
    · by_cases h2 : 100 < list_name.length
      · rw [validate_name_long_cases db list_name items_data none none h1 h2]
        constructor
        · intro h; simp at h
        · rintro ⟨-, hlen, -⟩; omega
      · have hno : ¬(list_name = "" ∨ py_strip list_name = "") := by
          rintro (rfl | hc)
          · exact h1 rfl
          · exact h1 hc
        simp only [validate_list_data, unique_step]
        rw [if_neg hno, if_neg h2]
        by_cases h3 : items_data.length = 0
        · rw [if_pos h3]
          constructor
          · intro h; simp at h
          · rintro ⟨-, -, h3', -⟩; exact absurd h3 h3'
        · rw [if_neg h3]
          by_cases h4 : 50 < items_data.length
          · rw [if_pos h4]
            constructor
            · intro h; simp at h
            · rintro ⟨-, -, -, h4', -⟩; omega
          · rw [if_neg h4]
            simp only [Except.ok.injEq]
            rw [validate_items_eq_ok 1 items_data]
            constructor
            · intro h; exact ⟨h1, by omega, h3, by omega, h⟩
            · rintro ⟨-, -, -, -, h⟩; exact h

/-- Witness for C3: a concrete well-formed input validates to `(true, "")`,
via the characterization. -/
theorem validate_list_data_characterization_witness :
    validate_list_data db2 ("Nueva") [dGood] none none = .ok (true, "") :=
  (validate_list_data_characterization db2 ("Nueva") [dGood]).2.2.2.mpr (by decide)

/-- C5: for every input rejected by validation, `create_list` returns
`(false, error_message, 0, [])`, emits exactly one error notification, and
performs no store write at all (the state gains only the error event, so no
list row and no item is persisted). -/
theorem create_list_validation_failure_no_writes
    (db : Store) (s : CtrlState) (category_id : Int) (list_name : String)
    (items_data : List ItemData) (description : Option String) (msg : String)
    (h : validate_list_data db list_name items_data (some category_id) none = .ok (false, msg)) :
    create_list db s category_id list_name items_data description =
      (.ok (false, msg, 0, []), emit s (.error_occurred msg)) := by
  simp [create_list, h]

/-- Witness for C5 at a concrete rejected input (empty name). -/
theorem create_list_validation_failure_no_writes_witness :
    create_list db2 CtrlState.init 2 "" [dGood] none =
      (.ok (false, "El nombre de la lista no puede estar vacío", 0, []),
       emit CtrlState.init (.error_occurred ("El nombre de la lista no puede estar vacío"))) :=
  create_list_validation_failure_no_writes db2 CtrlState.init 2 "" [dGood] none
    ("El nombre de la lista no puede estar vacío") rfl

/-- C10: for every list present in the store, `update_list` with
`new_name = ""` (no items, no description) succeeds; the empty name is
silently ignored — no validation runs (any store works, only `get_lista` is
constrained), no store write happens, and the state gains exactly the
`list_updated` and legacy updated notifications. -/
theorem update_list_empty_name_ignored (db : Store) (s : CtrlState) (lista_id : Int)
    (lista : ListaRec) (h : db.get_lista lista_id = .ok (some lista)) :
    update_list db s lista_id (some ("")) none none =
      (.ok (true, "Lista " ++ sq ++ lista.name ++ sq ++ " actualizada exitosamente"),
       emit (emit s (.list_updated lista_id lista.category_id))
         (.list_updated_legacy lista.name lista.category_id)) := by
  simp [update_list, h, rename_check, items_check, update_finish, final_name_of]

/-- Witness for C10 at a concrete store and list. -/
theorem update_list_empty_name_ignored_witness :
    update_list db2 CtrlState.init 1 (some ("")) none none =
      (.ok (true, "Lista " ++ sq ++ lista1.name ++ sq ++ " actualizada exitosamente"),
       emit (emit CtrlState.init (.list_updated 1 lista1.category_id))
         (.list_updated_legacy lista1.name lista1.category_id)) :=
  update_list_empty_name_ignored db2 CtrlState.init 1 lista1 rfl

/-- Successful runs of the item-persisting loop: one `db.add_item` write per
entry in input order with consecutive `orden_lista` starting at `k`, and the
returned ids collected in the same order. -/
lemma create_list_items_loop_spec (db : Store) (cat : Int) (lid : Int) :
    ∀ (items : List ItemData) (k : Nat) (s : CtrlState) (ids : List Int) (s2 : CtrlState),
    create_list_items_loop db cat lid k items s = (.ok ids, s2) →
    ids.length = items.length ∧
    s2.events = s.events ++ addEvents cat lid k items ∧
    ∀ i (hi : i < items.length) (hi2 : i < ids.length),
      db.add_item (mkAddArgs cat lid (k + i) (items.get ⟨i, hi⟩)) = .ok (ids.get ⟨i, hi2⟩) := by
  intro items
  induction items with
  | nil =>
    intro k s ids s2 h
    simp only [create_list_items_loop, Prod.mk.injEq, Except.ok.injEq] at h
    obtain ⟨rfl, rfl⟩ := h
    refine ⟨rfl, by simp [addEvents], ?_⟩
    intro i hi hi2
    exact absurd hi (by simp)
  | cons d rest ih =>
    intro k s ids s2 h
    simp only [create_list_items_loop] at h
    cases hadd : db.add_item (mkAddArgs cat lid k d) with
    | error e => rw [hadd] at h; simp at h
    | ok item_id =>
      rw [hadd] at h
      cases hrec : create_list_items_loop db cat lid (k + 1) rest
          (emit s (.db_add_item (mkAddArgs cat lid k d))) with
      | mk res s3 =>
        rw [hrec] at h
        cases res with
        | error e => simp at h
        | ok ids' =>
          simp only [Prod.mk.injEq, Except.ok.injEq] at h
          obtain ⟨rfl, rfl⟩ := h
          obtain ⟨hlen, hev, hpt⟩ := ih (k + 1) (emit s (.db_add_item (mkAddArgs cat lid k d))) ids' s3 hrec
          refine ⟨by simp [hlen], ?_, ?_⟩
          · rw [hev]; simp [emit, addEvents]
          · intro i hi hi2
            cases i with
            | zero => simpa using hadd
            | succ j =>
              have hj : j < rest.length := by simpa using hi
              have hj2 : j < ids'.length := by simpa using hi2
              have hp := hpt j hj hj2
              have harith : k + (j + 1) = (k + 1) + j := by omega
              rw [List.get_cons_succ, List.get_cons_succ, harith]
              exact hp

/-- C4: when `create_list` succeeds, it persisted the list row first, then
each submitted item in input order with `orden_lista` equal to its 1-based
position and the new list id as foreign key, returned the store-assigned
item ids in the same order, and emitted the created plus legacy-created
notifications after the writes. -/
theorem create_list_success_postcondition (db : Store) (s : CtrlState) (category_id : Int)
    (list_name : String) (items_data : List ItemData) (description : Option String)
    (msg : String) (lista_id : Int) (item_ids : List Int) (s' : CtrlState)
    (h : create_list db s category_id list_name items_data description =
      (.ok (true, msg, lista_id, item_ids), s')) :
    db.create_lista category_id list_name description = .ok lista_id ∧
    item_ids.length = items_data.length ∧
    msg = "Lista " ++ sq ++ list_name ++ sq ++ " creada con " ++
      toString item_ids.length ++ " pasos" ∧
    s'.events = s.events ++
      Event.db_create_lista category_id list_name description ::
      (addEvents category_id lista_id 1 items_data ++
       [Event.list_created lista_id category_id,
        Event.list_created_legacy list_name category_id]) ∧
    ∀ i (hi : i < items_data.length) (hi2 : i < item_ids.length),
      db.add_item (mkAddArgs category_id lista_id (i + 1) (items_data.get ⟨i, hi⟩)) =
        .ok (item_ids.get ⟨i, hi2⟩) := by
  simp only [create_list] at h
  split at h
  · simp at h
  · split at h
    · simp at h
    · split at h
      · simp at h
      · split at h
        · simp at h
        · rename_i lid hc pairx ids s2 heq3
          simp only [Prod.mk.injEq, Outcome.ok.injEq] at h
          obtain ⟨⟨-, hmsg, hlid, hids⟩, hs⟩ := h
          subst hlid hids hmsg
          obtain ⟨hlen, hev, hpt⟩ :=
            create_list_items_loop_spec db category_id _ items_data 1 _ _ _ heq3
          simp only [emit] at hev
          refine ⟨hc, hlen, rfl, ?_, ?_⟩
          · rw [← hs]; simp [emit, hev, List.append_assoc]
          · intro i hi hi2
            have hp := hpt i hi hi2
            have harith : 1 + i = i + 1 := by omega
            rw [harith] at hp
            exact hp

/-- Witness for C4 at a concrete successful `create_list` run. -/
theorem create_list_success_postcondition_witness :
    db2.create_lista 2 "Nueva" none = .ok 5 ∧
    ([101, 102] : List Int).length = ([dGood, dGood2] : List ItemData).length ∧
    ("Lista " ++ sq ++ "Nueva" ++ sq ++ " creada con 2 pasos") =
      "Lista " ++ sq ++ "Nueva" ++ sq ++ " creada con " ++
        toString ([101, 102] : List Int).length ++ " pasos" ∧
    ({ CtrlState.init with events := createdEvents } : CtrlState).events =
      CtrlState.init.events ++
        Event.db_create_lista 2 "Nueva" none ::
        (addEvents 2 5 1 [dGood, dGood2] ++
         [Event.list_created 5 2, Event.list_created_legacy ("Nueva") 2]) ∧
    ∀ i (hi : i < ([dGood, dGood2] : List ItemData).length)
      (hi2 : i < ([101, 102] : List Int).length),
      db2.add_item (mkAddArgs 2 5 (i + 1) (([dGood, dGood2] : List ItemData).get ⟨i, hi⟩)) =
        .ok (([101, 102] : List Int).get ⟨i, hi2⟩) :=
  create_list_success_postcondition db2 CtrlState.init 2 "Nueva" [dGood, dGood2] none
    ("Lista " ++ sq ++ "Nueva" ++ sq ++ " creada con 2 pasos") 5 [101, 102]
    { CtrlState.init with events := createdEvents } rfl

/-- C9 counterexample: on a store without list 7, `copy_all_list_items`
returns the not-found message but emits no error notification at all (the
state is unchanged), so the NotFoundError treatment is not uniform. -/
theorem copy_all_not_found_no_broadcast :
    copy_all_list_items dbNone clip0 CtrlState.init 7 "\n" =
      (.ok (false, "Lista con ID 7 no encontrada"), CtrlState.init) := rfl

/-- C9 (amended): on a list id absent from the store, `update_list`,
`delete_list` and `execute_list_sequentially` return a false result with the
not-found message and broadcast it as an error notification, while
`copy_all_list_items` returns the same false/not-found result without
broadcasting anything. -/
theorem not_found_treatment (db : Store) (clip : Clipboard) (s : CtrlState)
    (lista_id : Int) (new_name : Option String) (description : Option String)
    (items_data : Option (List ItemData)) (separator : String) (delay_ms : Int)
    (h : db.get_lista lista_id = .ok none) :
    update_list db s lista_id new_name description items_data =
      (.ok (false, "Lista con ID " ++ toString lista_id ++ " no encontrada"),
       emit s (.error_occurred ("Lista con ID " ++ toString lista_id ++ " no encontrada"))) ∧
    delete_list db s lista_id =
      (.ok (false, "Lista con ID " ++ toString lista_id ++ " no encontrada"),
       emit s (.error_occurred ("Lista con ID " ++ toString lista_id ++ " no encontrada"))) ∧
    execute_list_sequentially db clip s lista_id delay_ms =
      (.ok false,
       emit s (.error_occurred ("Lista con ID " ++ toString lista_id ++ " no encontrada"))) ∧
    copy_all_list_items db clip s lista_id separator =
      (.ok (false, "Lista con ID " ++ toString lista_id ++ " no encontrada"), s) := by
  refine ⟨?_, ?_, ?_, ?_⟩ <;>
    simp [update_list, delete_list, execute_list_sequentially, copy_all_list_items, h]

/-- Witness for C9 (amended) at a concrete store without list 7. -/
theorem not_found_treatment_witness :
    update_list dbNone CtrlState.init 7 none none none =
      (.ok (false, "Lista con ID 7 no encontrada"),
       emit CtrlState.init (.error_occurred ("Lista con ID 7 no encontrada"))) ∧
    delete_list dbNone CtrlState.init 7 =
      (.ok (false, "Lista con ID 7 no encontrada"),
       emit CtrlState.init (.error_occurred ("Lista con ID 7 no encontrada"))) ∧
    execute_list_sequentially dbNone clip0 CtrlState.init 7 500 =
      (.ok false, emit CtrlState.init (.error_occurred ("Lista con ID 7 no encontrada"))) ∧
    copy_all_list_items dbNone clip0 CtrlState.init 7 "\n" =
      (.ok (false, "Lista con ID 7 no encontrada"), CtrlState.init) :=
  not_found_treatment dbNone clip0 CtrlState.init 7 none none none ("\n") 500 rfl

/-- C2 counterexample: an exception raised by `is_lista_name_unique` during
the validation phase of `create_list` (which runs before the `try` block) escapes
`create_list` to the caller. -/
theorem create_list_validation_exception_escapes :
    create_list dbThrow CtrlState.init 2 "Nueva" [dGood] none =
      (.raised ("boom"), CtrlState.init) := rfl

/-- C1 counterexample: executing a single-item list starts successfully and
the cursor reaches the item count, but the timer is never started, so no
tick ever fires `_execute_next_step` again: `timer_tick` and
`cancel_execution` are both no-ops on the resulting state, the session
fields stay populated, and neither a completed nor a cancelled notification
is ever emitted — the session never finalizes. -/
theorem single_item_session_never_finalizes :
    (execute_list_sequentially db1 clip0 CtrlState.init 1 500).1 = .ok true ∧
    (execute_list_sequentially db1 clip0 CtrlState.init 1 500).2.execution_index =
      (execute_list_sequentially db1 clip0 CtrlState.init 1 500).2.execution_items.length ∧
    (execute_list_sequentially db1 clip0 CtrlState.init 1 500).2.execution_items = [itemA] ∧
    (execute_list_sequentially db1 clip0 CtrlState.init 1 500).2.execution_timer =
      some { active := false, interval := 0 } ∧
    timer_tick clip0 (execute_list_sequentially db1 clip0 CtrlState.init 1 500).2 =
      (execute_list_sequentially db1 clip0 CtrlState.init 1 500).2 ∧
    cancel_execution (execute_list_sequentially db1 clip0 CtrlState.init 1 500).2 =
      (execute_list_sequentially db1 clip0 CtrlState.init 1 500).2 ∧
    (execute_list_sequentially db1 clip0 CtrlState.init 1 500).2.events =
      [.execution_started 1 1, .clipboard_copy ("contenido uno"),
       .execution_step 1 ("Paso uno")] :=
  ⟨rfl, rfl, rfl, rfl, rfl, rfl, rfl⟩

/-- Postcondition of a successful `execute_list_sequentially` start: the new
session is installed with the cursor already advanced past step 0, the
started/copy/step events are appended after whatever `cancel_execution`
produced, and the timer is started (at `delay_ms`) iff the list has more
than one item. -/
lemma execute_start_spec (db : Store) (clip : Clipboard) (s : CtrlState) (lista_id : Int)
    (delay_ms : Int) (lista : ListaRec) (it : ItemRec) (rest : List ItemRec) (b : Bool)
    (h1 : db.get_lista lista_id = .ok (some lista))
    (h2 : db.get_items_by_lista lista_id = .ok (it :: rest))
    (hc : clip it.content = .ok b) :
    execute_list_sequentially db clip s lista_id delay_ms =
      (.ok true,
       { execution_timer :=
           if rest.isEmpty then some { active := false, interval := 0 }
           else some { active := true, interval := delay_ms },
         execution_items := it :: rest,
         execution_index := 1,
         execution_list_name := lista.name,
         execution_list_id := lista_id,
         events := (cancel_execution s).events ++
           [.execution_started lista_id (it :: rest).length,
            .clipboard_copy it.content,
            .execution_step 1 it.label] }) := by
  cases rest with
  | nil =>
    simp [execute_list_sequentially, get_list_items, h1, h2, execute_next_step, emit, hc]
  | cons r rs =>
    simp [execute_list_sequentially, get_list_items, h1, h2, execute_next_step, emit, hc]

/-- C7: under a non-raising store and clipboard, `execute_list_sequentially`
returns true iff the list exists and has at least one item; on a missing
list it returns false emitting the not-found error, and on an existing but
empty list it returns false emitting the error containing "vacía" — in both
failure cases the session fields are untouched (only the error event is
appended). -/
theorem execute_list_guard_characterization (db : Store) (clip : Clipboard) (s : CtrlState)
    (lista_id : Int) (delay_ms : Int) (r : Option ListaRec) (items : List ItemRec)
    (h1 : db.get_lista lista_id = .ok r)
    (h2 : db.get_items_by_lista lista_id = .ok items)
    (hclip : ∀ t, ∃ b, clip t = .ok b) :
    ((execute_list_sequentially db clip s lista_id delay_ms).1 = .ok true ↔
      (r.isSome = true ∧ items ≠ [])) ∧
    (r = none →
      execute_list_sequentially db clip s lista_id delay_ms =
        (.ok false,
         emit s (.error_occurred ("Lista con ID " ++ toString lista_id ++ " no encontrada")))) ∧
    (r.isSome = true → items = [] →
      execute_list_sequentially db clip s lista_id delay_ms =
        (.ok false, emit s (.error_occurred ("La lista está vacía")))) := by
  cases r with
  | none =>
    refine ⟨?_, fun _ => ?_, fun hs _ => by simp at hs⟩
    · simp [execute_list_sequentially, h1]
    · simp [execute_list_sequentially, h1]
  | some lista =>
    cases items with
    | nil =>
      refine ⟨?_, fun hn => by simp at hn, fun _ _ => ?_⟩
      · simp [execute_list_sequentially, get_list_items, h1, h2]
      · simp [execute_list_sequentially, get_list_items, h1, h2]
    | cons it rest =>
      obtain ⟨b, hb⟩ := hclip it.content
      rw [execute_start_spec db clip s lista_id delay_ms lista it rest b h1 h2 hb]
      exact ⟨by simp, fun hn => by simp at hn, fun _ h => by simp at h⟩

/-- Witness for C7 at a concrete store with an existing two-item list. -/
theorem execute_list_guard_characterization_witness :
    ((execute_list_sequentially db2 clip0 CtrlState.init 1 500).1 = .ok true ↔
      ((some lista1).isSome = true ∧ ([itemA, itemB] : List ItemRec) ≠ [])) ∧
    (some lista1 = none →
      execute_list_sequentially db2 clip0 CtrlState.init 1 500 =
        (.ok false,
         emit CtrlState.init (.error_occurred ("Lista con ID " ++ toString (1 : Int) ++ " no encontrada")))) ∧
    ((some lista1).isSome = true → ([itemA, itemB] : List ItemRec) = [] →
      execute_list_sequentially db2 clip0 CtrlState.init 1 500 =
        (.ok false, emit CtrlState.init (.error_occurred ("La lista está vacía")))) :=
  execute_list_guard_characterization db2 clip0 CtrlState.init 1 500 (some lista1)
    [itemA, itemB] rfl rfl (fun _ => ⟨true, rfl⟩)

/-- C8: on a successful start (list exists, non-empty, first copy does not
raise), `execute_list_sequentially` emits started with `(list_id, count)`,
then synchronously copies the content of the first item, emits the step
notification `(1, label)` and advances the cursor to 1, all before
returning; the repeating `delay_ms` timer is started iff the list has more
than one item. -/
theorem execute_list_start_behavior (db : Store) (clip : Clipboard) (s : CtrlState)
    (lista_id : Int) (delay_ms : Int) (lista : ListaRec) (it : ItemRec)
    (rest : List ItemRec) (b : Bool)
    (h1 : db.get_lista lista_id = .ok (some lista))
    (h2 : db.get_items_by_lista lista_id = .ok (it :: rest))
    (hc : clip it.content = .ok b) :
    execute_list_sequentially db clip s lista_id delay_ms =
      (.ok true,
       { execution_timer :=
           if rest.isEmpty then some { active := false, interval := 0 }
           else some { active := true, interval := delay_ms },
         execution_items := it :: rest,
         execution_index := 1,
         execution_list_name := lista.name,
         execution_list_id := lista_id,
         events := (cancel_execution s).events ++
           [.execution_started lista_id (it :: rest).length,
            .clipboard_copy it.content,
            .execution_step 1 it.label] }) :=
  execute_start_spec db clip s lista_id delay_ms lista it rest b h1 h2 hc

/-- Witness for C8: a concrete two-item run starts the 500 ms timer and
performs step 1 synchronously. -/
theorem execute_list_start_behavior_witness :
    execute_list_sequentially db2 clip0 CtrlState.init 1 500 =
      (.ok true,
       { execution_timer := some { active := true, interval := 500 },
         execution_items := [itemA, itemB],
         execution_index := 1,
         execution_list_name := "Pasos",
         execution_list_id := 1,
         events := (cancel_execution CtrlState.init).events ++
           [.execution_started 1 2, .clipboard_copy ("contenido uno"),
            .execution_step 1 ("Paso uno")] }) :=
  execute_list_start_behavior db2 clip0 CtrlState.init 1 500 lista1 itemA [itemB] true
    rfl rfl rfl

/-- C6: starting a new execution while a previous session is in flight
(timer active) first cancels it — timer dropped, session fields reset,
`execution_cancelled` emitted — and only then emits the
`execution_started` of the new session: calling `execute_list_sequentially` twice in a row
emits cancelled between the two starts. -/
theorem new_session_cancels_previous (db : Store) (clip : Clipboard) (s : CtrlState)
    (lista_id : Int) (delay_ms : Int) (lista : ListaRec) (it : ItemRec)
    (rest : List ItemRec) (b : Bool)
    (h1 : db.get_lista lista_id = .ok (some lista))
    (h2 : db.get_items_by_lista lista_id = .ok (it :: rest))
    (hc : clip it.content = .ok b)
    (hrun : is_executing s = true) :
    cancel_execution s =
      { execution_timer := none, execution_items := [], execution_index := 0,
        execution_list_name := "", execution_list_id := 0,
        events := s.events ++ [.execution_cancelled] } ∧
    (execute_list_sequentially db clip s lista_id delay_ms).2.events =
      s.events ++ .execution_cancelled ::
        .execution_started lista_id (it :: rest).length ::
        [.clipboard_copy it.content, .execution_step 1 it.label] := by
  have hcs : cancel_execution s =
      { execution_timer := none, execution_items := [], execution_index := 0,
        execution_list_name := "", execution_list_id := 0,
        events := s.events ++ [.execution_cancelled] } := by
    cases htm : s.execution_timer with
    | none => simp [is_executing, htm] at hrun
    | some tm =>
      have ha : tm.active = true := by simpa [is_executing, htm] using hrun
      simp [cancel_execution, htm, ha]
  refine ⟨hcs, ?_⟩
  rw [execute_start_spec db clip s lista_id delay_ms lista it rest b h1 h2 hc]
  simp [hcs]

/-- Witness for C6: two back-to-back concrete calls; the trace of the second call
appends cancelled, then the new started/copy/step events. -/
theorem new_session_cancels_previous_witness :
    cancel_execution (execute_list_sequentially db2 clip0 CtrlState.init 1 500).2 =
      { execution_timer := none, execution_items := [], execution_index := 0,
        execution_list_name := "", execution_list_id := 0,
        events := (execute_list_sequentially db2 clip0 CtrlState.init 1 500).2.events ++
          [.execution_cancelled] } ∧
    (execute_list_sequentially db2 clip0
        (execute_list_sequentially db2 clip0 CtrlState.init 1 500).2 1 500).2.events =
      (execute_list_sequentially db2 clip0 CtrlState.init 1 500).2.events ++
        .execution_cancelled ::
        .execution_started 1 ([itemA, itemB] : List ItemRec).length ::
        [.clipboard_copy itemA.content, .execution_step 1 itemA.label] :=
  new_session_cancels_previous db2 clip0 _ 1 500 lista1 itemA [itemB] true rfl rfl rfl rfl

/-- Iterating timer ticks from an active session whose cursor is `m` short
of the item count finalizes after `m + 1` ticks: the timer is dropped, all
session fields are reset to idle defaults, and `execution_completed` is
emitted with the list id of the session. -/
lemma run_ticks_finish (clip : Clipboard) (hclip : ∀ t, ∃ b, clip t = .ok b) :
    ∀ (m : Nat) (s : CtrlState), is_executing s = true →
    s.execution_index + m = s.execution_items.length →
    ∃ t, (timer_tick clip)^[m + 1] s =
      { execution_timer := none, execution_items := [], execution_index := 0,
        execution_list_name := "", execution_list_id := 0,
        events := s.events ++ t ++ [.execution_completed s.execution_list_id] } := by
  intro m
  induction m with
  | zero =>
    intro s hrun hlen
    refine ⟨[], ?_⟩
    simp only [Nat.zero_add, Function.iterate_one]
    cases htm : s.execution_timer with
    | none => simp [is_executing, htm] at hrun
    | some tm =>
      have ha : tm.active = true := by simpa [is_executing, htm] using hrun
      simp only [timer_tick, htm, ha, if_true]
      unfold execute_next_step
      rw [dif_neg (by omega)]
      simp [finish_execution]
  | succ m ih =>
    intro s hrun hlen
    have hlt : s.execution_index < s.execution_items.length := by omega
    cases htm : s.execution_timer with
    | none => simp [is_executing, htm] at hrun
    | some tm =>
      have ha : tm.active = true := by simpa [is_executing, htm] using hrun
      obtain ⟨b, hb⟩ := hclip (s.execution_items[s.execution_index].content)
      have hstep : timer_tick clip s =
          { s with
            execution_index := s.execution_index + 1,
            events := s.events ++
              [.clipboard_copy s.execution_items[s.execution_index].content,
               .execution_step (s.execution_index + 1)
                 s.execution_items[s.execution_index].label] } := by
        simp only [timer_tick, htm, ha, if_true]
        unfold execute_next_step
        rw [dif_pos hlt]
        simp [hb, emit, htm]
      obtain ⟨t', ht'⟩ := ih
        { s with
          execution_index := s.execution_index + 1,
          events := s.events ++
            [.clipboard_copy s.execution_items[s.execution_index].content,
             .execution_step (s.execution_index + 1)
               s.execution_items[s.execution_index].label] }
        (by simp [is_executing, htm, ha]) (by simp; omega)
      refine ⟨[.clipboard_copy s.execution_items[s.execution_index].content,
               .execution_step (s.execution_index + 1)
                 s.execution_items[s.execution_index].label] ++ t', ?_⟩
      rw [Function.iterate_succ_apply, hstep, ht']
      simp

/-- C1 (amended): a session started on a list with at least two items (and a
non-raising clipboard) finalizes after `item count` timer ticks: the timer
is stopped and dropped, all session fields reset to idle defaults, and an
`execution_completed` notification carrying the list id is emitted. -/
theorem multi_item_session_finalizes (db : Store) (clip : Clipboard) (s : CtrlState)
    (lista_id : Int) (delay_ms : Int) (lista : ListaRec) (items : List ItemRec)
    (h1 : db.get_lista lista_id = .ok (some lista))
    (h2 : db.get_items_by_lista lista_id = .ok items)
    (h3 : 2 ≤ items.length)
    (hclip : ∀ t, ∃ b, clip t = .ok b) :
    (execute_list_sequentially db clip s lista_id delay_ms).1 = .ok true ∧
    ∃ t, (timer_tick clip)^[items.length]
        (execute_list_sequentially db clip s lista_id delay_ms).2 =
      { execution_timer := none, execution_items := [], execution_index := 0,
        execution_list_name := "", execution_list_id := 0,
        events := (execute_list_sequentially db clip s lista_id delay_ms).2.events ++ t ++
          [.execution_completed lista_id] } := by
  cases items with
  | nil => simp at h3
  | cons it rest =>
    cases rest with
    | nil => simp at h3
    | cons r rs =>
      obtain ⟨b, hb⟩ := hclip it.content
      rw [execute_start_spec db clip s lista_id delay_ms lista it (r :: rs) b h1 h2 hb]
      refine ⟨rfl, ?_⟩
      refine run_ticks_finish clip hclip (rs.length + 1) _ (by simp [is_executing]) (by simp; omega)

/-- Witness for C1 (amended) at a concrete two-item run. -/
theorem multi_item_session_finalizes_witness :
    (execute_list_sequentially db2 clip0 CtrlState.init 1 500).1 = .ok true ∧
    ∃ t, (timer_tick clip0)^[([itemA, itemB] : List ItemRec).length]
        (execute_list_sequentially db2 clip0 CtrlState.init 1 500).2 =
      { execution_timer := none, execution_items := [], execution_index := 0,
        execution_list_name := "", execution_list_id := 0,
        events := (execute_list_sequentially db2 clip0 CtrlState.init 1 500).2.events ++ t ++
          [.execution_completed 1] } :=
  multi_item_session_finalizes db2 clip0 CtrlState.init 1 500 lista1 [itemA, itemB]
    rfl rfl (by simp) (fun _ => ⟨true, rfl⟩)

/-- If the uniqueness query returns normally, validation cannot raise. -/
lemma validate_no_raise_of_unique_ok (db : Store) (n : String) (items : List ItemData)
    (cid : Int) (ex : Option Int) (u : Bool)
    (h : db.is_lista_name_unique cid n ex = .ok u) :
    ∃ b m, validate_list_data db n items (some cid) ex = .ok (b, m) := by
  simp only [validate_list_data, unique_step, h]
  split_ifs <;> exact ⟨_, _, rfl⟩

/-- C2 (amended): every store/clipboard exception raised inside a `try`
block is caught at the controller boundary — `update_list`, `delete_list`,
`copy_all_list_items` and `execute_list_sequentially` never propagate an
exception, the queries return `[]` on a raising store, and `create_list`
returns normally whenever `is_lista_name_unique` does not raise; only an
exception raised by `is_lista_name_unique` during the validation phase of
`create_list` (which runs before the `try` block) escapes to the caller. -/
theorem controller_exception_containment :
    (∀ (db : Store) (s : CtrlState) (lista_id : Int) (new_name : Option String)
       (description : Option String) (items_data : Option (List ItemData)),
       ((update_list db s lista_id new_name description items_data).1).isOk = true) ∧
    (∀ (db : Store) (s : CtrlState) (lista_id : Int),
       ((delete_list db s lista_id).1).isOk = true) ∧
    (∀ (db : Store) (clip : Clipboard) (s : CtrlState) (lista_id : Int) (separator : String),
       ((copy_all_list_items db clip s lista_id separator).1).isOk = true) ∧
    (∀ (db : Store) (clip : Clipboard) (s : CtrlState) (lista_id : Int) (delay_ms : Int),
       ((execute_list_sequentially db clip s lista_id delay_ms).1).isOk = true) ∧
    (∀ (db : Store) (category_id : Int) (e : String),
       db.get_listas_by_category_new category_id = .error e →
       get_lists db category_id = []) ∧
    (∀ (db : Store) (lista_id : Int) (e : String),
       db.get_items_by_lista lista_id = .error e →
       get_list_items db lista_id = []) ∧
    (∀ (db : Store) (s : CtrlState) (category_id : Int) (list_name : String)
       (items_data : List ItemData) (description : Option String) (u : Bool),
       db.is_lista_name_unique category_id list_name none = .ok u →
       ((create_list db s category_id list_name items_data description).1).isOk = true) := by
  refine ⟨?_, ?_, ?_, ?_, ?_, ?_, ?_⟩
  · intro db s lista_id new_name description items_data
    simp only [update_list]
    repeat' split
    all_goals rfl
  · intro db s lista_id
    simp only [delete_list]
    repeat' split
    all_goals rfl
  · intro db clip s lista_id separator
    simp only [copy_all_list_items]
    repeat' split
    all_goals rfl
  · intro db clip s lista_id delay_ms
    simp only [execute_list_sequentially]
    repeat' split
    all_goals rfl
  · intro db category_id e h
    simp [get_lists, h]
  · intro db lista_id e h
    simp [get_list_items, h]
  · intro db s category_id list_name items_data description u h
    obtain ⟨b, m, hv⟩ :=
      validate_no_raise_of_unique_ok db list_name items_data category_id none u h
    simp only [create_list, hv]
    repeat' split
    all_goals rfl

/-- Witness for C2 (amended): a raising uniqueness check is still caught by
`update_list`; a raising query store yields `[]`; a normal uniqueness check
lets `create_list` return normally. -/
theorem controller_exception_containment_witness :
    ((update_list dbThrow CtrlState.init 1 (some ("Nueva")) none none).1).isOk = true ∧
    get_lists dbRaise 2 = [] ∧
    ((create_list db2 CtrlState.init 2 "Nueva" [dGood] none).1).isOk = true :=
  ⟨controller_exception_containment.1 dbThrow CtrlState.init 1 (some ("Nueva")) none none,
   controller_exception_containment.2.2.2.2.1 dbRaise 2 "boom" rfl,
   controller_exception_containment.2.2.2.2.2.2 db2 CtrlState.init 2 "Nueva" [dGood] none
     true rfl⟩

end ListCtrl
